import Mathlib

/-!
Verification of the settlement-transfer tool (src/transfer.py) against its
natural-language specification.

The development is a shallow embedding of the Python source:

* Python string primitives used by the tool (`str.strip`, `str.lower`,
  `str.split(",")`, slicing `[:1]`, `int(...)`) are modelled explicitly as
  `pyStrip`, `pyLower`, `pySplitComma`, `pySlice1`, `pyInt`, so that their
  semantics are the ones of Python, not the ones of the Lean library.
* A pandas DataFrame is modelled as a list of column names plus rows of
  positionally aligned cell values, each row carrying its integer index label.
  Cell values are modelled by `PyVal` (`blank` plays the role of NaN).
* Interactive `input(...)` calls are modelled by consuming a finite list of
  scripted operator answers; unbounded re-prompt recursion is modelled with
  explicit fuel, `outOfInput` standing for a run that is still blocked on the
  operator (or would recurse past the scripted answers).
* `sys.exit` and uncaught Python exceptions appear as explicit result
  constructors; `print` calls that matter to the claims are accumulated in a
  log of messages.
* The Selenium browser is modelled as an oracle: a stream of values for the
  successive reads of `browser.current_url` and a stream of outcomes for the
  successive `find_element` calls.  Wall-clock sleeps are irrelevant to the
  claims and are dropped.
-/

/-- Whitespace characters recognised by the model of Python `str.strip`. -/
def isSpaceChar (c : Char) : Bool :=
  c = ' ' || c = '\t' || c = '\n' || c = '\r' || c = '\x0b' || c = '\x0c'

/-- Model of Python `str.strip()`: drop whitespace from both ends. -/
def pyStrip (s : String) : String :=
  ⟨((s.data.dropWhile isSpaceChar).reverse.dropWhile isSpaceChar).reverse⟩

/-- Lowercase one character (ASCII, as the tool only meets ASCII input). -/
def lowerChar (c : Char) : Char :=
  if 'A' ≤ c ∧ c ≤ 'Z' then Char.ofNat (c.toNat + 32) else c

/-- Model of Python `str.lower()`. -/
def pyLower (s : String) : String :=
  ⟨s.data.map lowerChar⟩

/-- Model of Python slicing `s[:1]`: the first character, or `""` when empty. -/
def pySlice1 (s : String) : String :=
  match s.data with
  | [] => ""
  | c :: _ => ⟨[c]⟩

/-- Helper for the model of Python `str.split(",")`. -/
def splitCommaAux : List Char → List Char → List String
  | [], acc => [⟨acc.reverse⟩]
  | c :: cs, acc =>
    if c = ',' then ⟨acc.reverse⟩ :: splitCommaAux cs []
    else splitCommaAux cs (c :: acc)

/-- Model of Python `str.split(",")`; note `"".split(",") == [""]`. -/
def pySplitComma (s : String) : List String :=
  splitCommaAux s.data []

/-- Value of a decimal digit character, `none` on anything else. -/
def digitVal (c : Char) : Option Nat :=
  if '0' ≤ c ∧ c ≤ '9' then some (c.toNat - '0'.toNat) else none

/-- Accumulate decimal digits; fails on the first non-digit. -/
def parseDigitsAux : List Char → Nat → Option Nat
  | [], acc => some acc
  | c :: cs, acc =>
    match digitVal c with
    | none => none
    | some d => parseDigitsAux cs (acc * 10 + d)

/-- Parse a non-empty all-digit character list. -/
def parseDigits : List Char → Option Nat
  | [] => none
  | c :: cs => parseDigitsAux (c :: cs) 0

/-- Model of Python `int(s)` on a text token: surrounding whitespace is
ignored, an optional sign is allowed, then decimal digits; `none` models the
`ValueError` that `int` raises on anything else. -/
def pyInt (s : String) : Option Int :=
  match (pyStrip s).data with
  | '+' :: rest => (parseDigits rest).map Int.ofNat
  | '-' :: rest => (parseDigits rest).map (fun n => -(Int.ofNat n))
  | cs => (parseDigits cs).map Int.ofNat

/-- A spreadsheet cell value as pandas sees it; `blank` models NaN (an empty
cell).  Numeric amounts are carried opaquely: the tool never computes with
them, it only copies them into the transfer form. -/
inductive PyVal where
  | str (s : String)
  | int (n : Int)
  | blank
deriving DecidableEq, Repr

/-- Does this cell value model NaN?  (pandas `isna`.) -/
def pyValIsBlank : PyVal → Bool
  | PyVal.blank => true
  | _ => false

/-- Model of a pandas DataFrame: column names, and rows of positionally
aligned cell values, each row labelled by its integer index (the index that
`read_excel` assigns: spreadsheet row `n` carries label `n - 2`, because row 1
is the header and labels start at 0; `dropna` keeps labels unchanged). -/
structure DataFrame where
  cols : List String
  rows : List (Int × List PyVal)
deriving DecidableEq, Repr

/-- Modelled from the spec: `constants.REQUIRED_COLUMNS` lives in
`constants.py`, which is not under `src/`.  The spec (sections 3 and 6) fixes
the required columns as the client name plus the four amount columns, whose
spreadsheet names are the ones `SettlementCase.parse_settlement_series` reads:
NAME, IOLTA to Business, MKT ACCT, CASH\x27S LOAN, BUILDING BONUS. -/
def REQUIRED_COLUMNS : List String :=
  ["NAME", "IOLTA to Business", "MKT ACCT", "CASH\x27S LOAN", "BUILDING BONUS"]

/-- Step 1 of `SettlementData.preprocess_settlements_df`: strip leading and
trailing whitespace in the column names.  (Rows are positional, so renaming
columns leaves the cell values untouched, exactly as in pandas.) -/
def stripColumnNames (df : DataFrame) : DataFrame :=
  { df with cols := df.cols.map pyStrip }

/-- Is every value of column `j` blank?  (Used by `dropna(axis=1, how="all")`.) -/
def colIsAllBlank (df : DataFrame) (j : Nat) : Bool :=
  df.rows.all (fun p => pyValIsBlank (p.2.getD j PyVal.blank))

/-- Step 2 of `preprocess_settlements_df`: `dropna(axis=1, how="all")`, drop
the columns whose every value is blank. -/
def dropEmptyColumns (df : DataFrame) : DataFrame :=
  let keep := (List.range df.cols.length).filter (fun j => ! colIsAllBlank df j)
  { cols := keep.filterMap (fun j => df.cols.get? j),
    rows := df.rows.map (fun p => (p.1, keep.filterMap (fun j => p.2.get? j))) }

/-- Positions of the `subset` column names inside `cols`; `none` models the
`KeyError` pandas raises when a `dropna` subset column is absent. -/
def findSubsetIdxs (cols : List String) : List String → Option (List Nat)
  | [] => some []
  | c :: cs =>
    match cols.findIdx? (fun x => x == c) with
    | none => none
    | some j =>
      match findSubsetIdxs cols cs with
      | none => none
      | some js => some (j :: js)

/-- Step 3 of `preprocess_settlements_df`: `dropna(axis=0, subset=REQUIRED_COLUMNS)`,
keep exactly the rows whose every required cell is non-blank. -/
def dropnaRows (df : DataFrame) (subset : List String) : Except String DataFrame :=
  match findSubsetIdxs df.cols subset with
  | none => Except.error "KeyError: dropna subset column missing from DataFrame"
  | some js =>
    Except.ok { df with
      rows := df.rows.filter (fun p => js.all (fun j => ! pyValIsBlank (p.2.getD j PyVal.blank))) }

/-- `SettlementData.preprocess_settlements_df`: strip column names, drop
all-blank columns, then drop the rows missing any required field. -/
def preprocess_settlements_df (df : DataFrame) : Except String DataFrame :=
  dropnaRows (dropEmptyColumns (stripColumnNames df)) REQUIRED_COLUMNS

/-- `SettlementData.parse_row_input`, token step: run Python
`int(tok.strip())` over the comma-separated tokens, failing (`ValueError`) on
the first non-integer token, exactly as the list comprehension does. -/
def parse_row_input_tokens : List String → Option (List Int)
  | [] => some []
  | tok :: toks =>
    match pyInt (pyStrip tok) with
    | none => none
    | some n =>
      match parse_row_input_tokens toks with
      | none => none
      | some ns => some (n :: ns)

/-- `SettlementData.parse_row_input`: split the operator string on commas and
convert every token with `int`; `none` models the uncaught `ValueError`. -/
def parse_row_input (row_input : String) : Option (List Int) :=
  parse_row_input_tokens (pySplitComma row_input)

/-- Row of `rows` carrying index label `i` (pandas label lookup; the original
index labels survive `dropna`, so they are not positions). -/
def lookupLabel (rows : List (Int × List PyVal)) (i : Int) : Option (List PyVal) :=
  match rows.find? (fun p => p.1 == i) with
  | none => none
  | some p => some p.2

/-- Model of `df.loc[idxs]` for a list of index labels: one result row per
requested label, in request order, duplicates included; `none` models the
`KeyError` raised when any label is absent. -/
def locLookup (rows : List (Int × List PyVal)) : List Int → Option (List (Int × List PyVal))
  | [] => some []
  | i :: is =>
    match lookupLabel rows i with
    | none => none
    | some r =>
      match locLookup rows is with
      | none => none
      | some rest => some ((i, r) :: rest)

/-- `SettlementData.response_is_yes` over the scripted operator answers: the
answer is lowercased then stripped; a leading `y` means yes, a leading `n`
means no, anything else prints a reminder and asks again (consuming the next
scripted answer).  `none` models a session that ran out of scripted input. -/
def response_is_yes : List String → Option (Bool × List String)
  | [] => none
  | r :: rest =>
    let resp := pyStrip (pyLower r)
    if pySlice1 resp = "y" then some (true, rest)
    else if pySlice1 resp = "n" then some (false, rest)
    else response_is_yes rest

/-- Message printed by `select_settlements_by_row` when `df.loc` raises
`KeyError` (the f-string interpolates `REQUIRED_COLUMNS`; the wording is all
that matters here). -/
def rowUnavailableMsg : String :=
  "Row unavailable for transfer. Please ensure that the following required columns are filled out"

/-- Message of the `ValueError` that `int` raises on a non-integer token. -/
def valueErrorMsg : String :=
  "ValueError: invalid literal for int() with base 10"

/-- Result of one (possibly recursive) call of
`SettlementData.select_settlements_by_row`. -/
inductive SelectResult where
  /-- The operator confirmed this sub-DataFrame: label and cells of each
  selected row, in request order. -/
  | selected (rows : List (Int × List PyVal))
  /-- The operator declined re-entering rows: the method prints
  "No rows selected" and returns `None`. -/
  | noneSelected
  /-- An uncaught Python exception terminated the process. -/
  | pyError (msg : String)
  /-- The run is still blocked on operator input (scripted answers or fuel
  exhausted). -/
  | outOfInput
deriving DecidableEq, Repr

/-- `SettlementData.select_settlements_by_row`, driven by the scripted
operator answers, threading the log of printed messages.  The first answer is
the row-number string; `df.loc` failure (`KeyError`) prints the
row-unavailable message and re-prompts recursively; after a successful lookup
the operator is shown the rows and asked to confirm, a rejection asks whether
to re-enter, and a second no returns `None`.  The `ValueError` of
`parse_row_input` is raised outside the `try` block, so it is never caught. -/
def select_settlements_by_row (df : DataFrame) :
    Nat → List String → List String → SelectResult × List String
  | 0, _, log => (SelectResult.outOfInput, log)
  | _ + 1, [], log => (SelectResult.outOfInput, log)
  | fuel + 1, row_input :: rest, log =>
    match parse_row_input row_input with
    | none => (SelectResult.pyError valueErrorMsg, log)
    | some rows =>
      match locLookup df.rows (rows.map (fun row => row - 2)) with
      | none => select_settlements_by_row df fuel rest (log ++ [rowUnavailableMsg])
      | some sub_df =>
        match response_is_yes rest with
        | none => (SelectResult.outOfInput, log)
        | some (true, _) => (SelectResult.selected sub_df, log)
        | some (false, rest2) =>
          match response_is_yes rest2 with
          | none => (SelectResult.outOfInput, log)
          | some (true, rest3) => select_settlements_by_row df fuel rest3 log
          | some (false, _) => (SelectResult.noneSelected, log ++ ["No rows selected"])

/-- Helper of `drop_duplicates`: keep the first row of each distinct cell
content (pandas compares cell values only, never the index label). -/
def drop_duplicates_aux (seen : List (List PyVal)) :
    List (Int × List PyVal) → List (Int × List PyVal)
  | [] => []
  | p :: rest =>
    if p.2 ∈ seen then drop_duplicates_aux seen rest
    else p :: drop_duplicates_aux (p.2 :: seen) rest

/-- Model of pandas `DataFrame.drop_duplicates()` as used by
`SettlementData.preprocess_settlement_rows_for_transfer`: drop every row whose
cell content already appeared earlier, keeping first occurrences in order. -/
def drop_duplicates (rows : List (Int × List PyVal)) : List (Int × List PyVal) :=
  drop_duplicates_aux [] rows

/-- `SettlementCase`: the parsed attributes of one settlement row
(`parse_settlement_series` assigns them from the named columns). -/
structure SettlementCase where
  client_name : PyVal
  amount_iolta_to_operating : PyVal
  amount_operating_to_marketing : PyVal
  amount_operating_to_cash : PyVal
  amount_operating_to_building : PyVal
deriving DecidableEq, Repr

/-- Model of indexing a pandas Series (one row) by column name:
`none` models the `KeyError` on a missing column. -/
def seriesGet (cols : List String) (vals : List PyVal) (c : String) : Option PyVal :=
  match cols.findIdx? (fun x => x == c) with
  | none => none
  | some j => vals.get? j

/-- `SettlementCase.parse_settlement_series`: read the five named columns of
the row; a missing column raises `KeyError` (modelled by `none`). -/
def parse_settlement_series (cols : List String) (vals : List PyVal) : Option SettlementCase :=
  match seriesGet cols vals "NAME", seriesGet cols vals "IOLTA to Business",
        seriesGet cols vals "MKT ACCT", seriesGet cols vals "CASH\x27S LOAN",
        seriesGet cols vals "BUILDING BONUS" with
  | some nm, some a1, some a2, some a3, some a4 => some ⟨nm, a1, a2, a3, a4⟩
  | _, _, _, _, _ => none

/-- `SettlementData.convert_settlement_rows_to_transfer_items`: one
`SettlementCase` per row, in row order. -/
def convert_settlement_rows_to_transfer_items (cols : List String) :
    List (Int × List PyVal) → Option (List SettlementCase)
  | [] => some []
  | p :: rest =>
    match parse_settlement_series cols p.2 with
    | none => none
    | some c =>
      match convert_settlement_rows_to_transfer_items cols rest with
      | none => none
      | some cs => some (c :: cs)

/-- Result of `SettlementData.execute_transfers`. -/
inductive ExecTransfersResult where
  /-- The operator confirmed; these settlement cases were handed to
  `perform_transfers_via_selenium`. -/
  | executed (items : List SettlementCase)
  /-- The operator answered no: "Transfer not executed", nothing submitted. -/
  | notExecuted
  /-- An uncaught Python exception terminated the process. -/
  | pyError (msg : String)
  /-- The run is still blocked on operator input. -/
  | outOfInput
deriving DecidableEq, Repr

/-- `SettlementData.execute_transfers`: first
`preprocess_settlement_rows_for_transfer` (drop duplicate rows), then show
the rows and ask for confirmation; on yes, convert the rows to settlement
cases and hand them to the Selenium driver. -/
def execute_transfers (cols : List String) (settlement_rows : List (Int × List PyVal))
    (inputs : List String) : ExecTransfersResult :=
  let rows2 := drop_duplicates settlement_rows
  match response_is_yes inputs with
  | none => ExecTransfersResult.outOfInput
  | some (false, _) => ExecTransfersResult.notExecuted
  | some (true, _) =>
    match convert_settlement_rows_to_transfer_items cols rows2 with
    | none => ExecTransfersResult.pyError "KeyError: required column missing from settlement row"
    | some items => ExecTransfersResult.executed items

/-- Modelled from the spec: the account numbers and labels of
`constants.py` are external configuration (spec section 6), so they are
parameters of the model. -/
structure Constants where
  IOLTA_ACCT_NUM : Nat
  OPERATING_ACCT_NUM : Nat
  MARKETING_ACCT_NUM : Nat
  CASH_ACCT_NUM : Nat
  BUILDING_ACCT_NUM : Nat

/-- One entry of the list built by `initialize_transfer_dict`: the keys of the
Python dict become fields. -/
structure TransferOrder where
  from_acct : String
  to_acct : String
  from_acct_num : String
  to_acct_num : String
  amount : PyVal
  name : PyVal
deriving DecidableEq, Repr

/-- `initialize_transfer_dict`: the four fixed transfer legs of one
settlement, in source order, account numbers rendered with `str(...)`,
amounts and client name copied from the settlement case unchanged. -/
def initialize_transfer_dict (c : Constants) (settlement_item : SettlementCase) :
    List TransferOrder :=
  [ { from_acct := "Iolta",
      to_acct := "Operating",
      from_acct_num := toString c.IOLTA_ACCT_NUM,
      to_acct_num := toString c.OPERATING_ACCT_NUM,
      amount := settlement_item.amount_iolta_to_operating,
      name := settlement_item.client_name },
    { from_acct := "Operating",
      to_acct := "Marketing",
      from_acct_num := toString c.OPERATING_ACCT_NUM,
      to_acct_num := toString c.MARKETING_ACCT_NUM,
      amount := settlement_item.amount_operating_to_marketing,
      name := settlement_item.client_name },
    { from_acct := "Operating",
      to_acct := "Cash Loan Repayment Fund",
      from_acct_num := toString c.OPERATING_ACCT_NUM,
      to_acct_num := toString c.CASH_ACCT_NUM,
      amount := settlement_item.amount_operating_to_cash,
      name := settlement_item.client_name },
    { from_acct := "Operating",
      to_acct := "Building",
      from_acct_num := toString c.OPERATING_ACCT_NUM,
      to_acct_num := toString c.BUILDING_ACCT_NUM,
      amount := settlement_item.amount_operating_to_building,
      name := settlement_item.client_name } ]

/-- The homepage URL (`constants.HOMEPAGE`; the literal the waits use in
`perform_transfers_via_selenium`). -/
def homeUrl : String := "https://www.frostbank.com/"

/-- Expected post-login URL (`verify_login`). -/
def mainAccountsUrl : String := "https://www.frostbank.com/mf/accounts/main"

/-- Transfers page URL (`verify_navigation_to_transfers`). -/
def transfersMainUrl : String := "https://www.frostbank.com/mf/transfers/main"

/-- Transfer review page URL. -/
def transfersVerifyUrl : String := "https://www.frostbank.com/mf/transfers/verify"

/-- Transfer confirmation page URL. -/
def transfersConfirmUrl : String := "https://www.frostbank.com/mf/transfers/confirm"

/-- Message printed inside the `wait_for_url_load` loop once the iteration
counter passes `max_iter`. -/
def waitFailMsg (url : String) : String :=
  "Failed to reach " ++ url ++ ". Aborting, please try again."

/-- Message printed by `verify_login` before `sys.exit()`. -/
def loginFailMsg : String :=
  "Failed to login. Check that username and password were entered correctly"

/-- Message of the exception raised by `verify_navigation_to_transfers`. -/
def navFailMsg : String :=
  "Failed to navigate to transfers page. Check that the specified actions correctly take you to the transfers page."

/-- Message of the `UnboundLocalError` Python raises when a local variable is
read before any assignment reached it. -/
def unboundLocalMsg (v : String) : String :=
  "UnboundLocalError: local variable " ++ v ++ " referenced before assignment"

/-- Reading a Python local variable: `none` is a variable that the function
assigns somewhere (making it local) but that no assignment has reached yet, so
the read raises `UnboundLocalError`. -/
def pyLocalVar {α : Type} (v : String) (x : Option α) : Except String α :=
  match x with
  | none => Except.error (unboundLocalMsg v)
  | some a => Except.ok a

/-- `wait_for_url_load(browser, url, wait_time=1.5, max_iter=10)`, the polling
loop itself: `urlAt t` is the value of the t-th read of
`browser.current_url`, `i` the loop counter (0 at entry), `log` the printed
messages so far.  The loop leaves only when the URL matches; passing
`max_iter` only prints the failure message, nothing stops the loop, so `fuel`
bounds how many polls we unroll: result `none` means the loop is still
polling after `fuel` reads. -/
def wait_for_url_load (urlAt : Nat → String) (url : String) (max_iter : Nat) :
    Nat → Nat → Nat → List String → Option Unit × Nat × List String
  | 0, _, t, log => (none, t, log)
  | fuel + 1, i, t, log =>
    if urlAt t = url then (some (), t + 1, log)
    else
      let i2 := i + 1
      let log2 := if max_iter < i2 then log ++ [waitFailMsg url] else log
      wait_for_url_load urlAt url max_iter fuel i2 (t + 1) log2

/-- The browser session as an oracle: the successive values of
`browser.current_url` and the successive outcomes of `find_element` calls. -/
structure SeleniumEnv where
  urlAt : Nat → String
  findOk : Nat → Bool

/-- State threaded through `perform_transfers_via_selenium`: the read
counters, the printed log, the transfer orders whose form filling began, and
whether the navigation to the transfers page was performed. -/
structure ExecState where
  t : Nat
  f : Nat
  log : List String
  attempted : List TransferOrder
  navigated : Bool
deriving DecidableEq, Repr

/-- How `perform_transfers_via_selenium` can end. -/
inductive RunOutcome where
  /-- Normal completion; `browser.close()` was reached. -/
  | completed
  /-- `sys.exit()` after a printed message. -/
  | exited (msg : String)
  /-- An uncaught Python exception terminated the process. -/
  | exception (msg : String)
  /-- A `wait_for_url_load` loop was still polling when the fuel ran out. -/
  | diverged
deriving DecidableEq, Repr

/-- A step of the executor either continues with a new state or ends the
whole run. -/
abbrev ExecStep := Except (RunOutcome × ExecState) ExecState

/-- The state at the start of the run (counters at zero, nothing attempted). -/
def initState : ExecState := ⟨0, 0, [], [], false⟩

/-- One `find_element` call against the oracle, consuming one find outcome. -/
def doFind (env : SeleniumEnv) (s : ExecState) : Bool × ExecState :=
  (env.findOk s.f, { s with f := s.f + 1 })

/-- A `wait_for_url_load` call inside the run: on a matched URL the run goes
on; if the loop is still polling when the fuel runs out the run counts as
diverged (the real loop never stops by itself). -/
def doWait (env : SeleniumEnv) (url : String) (wfuel : Nat) (s : ExecState) : ExecStep :=
  match wait_for_url_load env.urlAt url 10 wfuel 0 s.t s.log with
  | (some _, t2, log2) => Except.ok { s with t := t2, log := log2 }
  | (none, t2, log2) => Except.error (RunOutcome.diverged, { s with t := t2, log := log2 })

/-- `execute_login`: `i = 0`; try to find the username field — on failure the
handler runs `i = i + 1` (bound, fine), sleeps since `i < 5`, and control then
falls through to `user_field.clear()` although `user_field` was never bound,
raising `UnboundLocalError`; on success the password field is looked up
outside any `try`, so its failure raises uncaught. -/
def execute_login_step (env : SeleniumEnv) (s : ExecState) : ExecStep :=
  let (foundUser, s1) := doFind env s
  if foundUser then
    -- user_field.clear(); prompt for username; send keys
    let (foundPass, s2) := doFind env s1
    if foundPass then Except.ok s2
    else Except.error (RunOutcome.exception "NoSuchElementException: password-field", s2)
  else
    match pyLocalVar "i" (some 0) with
    | Except.error m => Except.error (RunOutcome.exception m, s1)
    | Except.ok i =>
      let i2 := i + 1
      if i2 < 5 then
        -- sleep_random_time, then control reaches user_field.clear()
        match pyLocalVar "user_field" (none : Option Unit) with
        | Except.error m => Except.error (RunOutcome.exception m, s1)
        | Except.ok _ => Except.ok s1
      else Except.error (RunOutcome.exception "Unable to load main page. Please try again.", s1)

/-- `verify_login`: one read of `browser.current_url`; a mismatch prints the
login-failure message and calls `sys.exit()`. -/
def verify_login_step (env : SeleniumEnv) (s : ExecState) : ExecStep :=
  if env.urlAt s.t = mainAccountsUrl then Except.ok { s with t := s.t + 1 }
  else Except.error (RunOutcome.exited loginFailMsg,
    { s with t := s.t + 1, log := s.log ++ [loginFailMsg] })

/-- `navigate_to_transfers`: try to find the transfers tab — on failure the
handler runs `i = i + 1`, but this function never assigns `i` before, so the
read raises `UnboundLocalError`; on success the keyboard action chain is
performed, which is the navigation to the transfers page. -/
def navigate_to_transfers_step (env : SeleniumEnv) (s : ExecState) : ExecStep :=
  let (foundTab, s1) := doFind env s
  if foundTab then Except.ok { s1 with navigated := true }
  else
    match pyLocalVar "i" (none : Option Nat) with
    | Except.error m => Except.error (RunOutcome.exception m, s1)
    | Except.ok i =>
      if i + 1 < 5 then Except.ok { s1 with navigated := true }
      else Except.error (RunOutcome.exception "Unable to load main accounts page. Please try again.", s1)

/-- `verify_navigation_to_transfers`: one URL read; a mismatch raises an
uncaught exception. -/
def verify_navigation_step (env : SeleniumEnv) (s : ExecState) : ExecStep :=
  if env.urlAt s.t = transfersMainUrl then Except.ok { s with t := s.t + 1 }
  else Except.error (RunOutcome.exception navFailMsg, { s with t := s.t + 1 })

/-- `select_from_account`: try to find the from-account dropdown — on failure
the handler reads the never-assigned `i`, raising `UnboundLocalError`; on
success the xpath lookup of the account row is indexed with `[0]`, raising
`IndexError` when nothing matched. -/
def select_from_account_step (env : SeleniumEnv) (s : ExecState) : ExecStep :=
  let (foundDropdown, s1) := doFind env s
  if foundDropdown then
    let (foundRow, s2) := doFind env s1
    if foundRow then Except.ok s2
    else Except.error (RunOutcome.exception "IndexError: list index out of range", s2)
  else
    match pyLocalVar "i" (none : Option Nat) with
    | Except.error m => Except.error (RunOutcome.exception m, s1)
    | Except.ok i =>
      if i + 1 < 5 then Except.ok s1
      else Except.error (RunOutcome.exception "Unable to load transfers page. Please try again.", s1)

/-- `select_to_account`: both lookups are unguarded; a missing dropdown raises
`NoSuchElementException`, an empty xpath match raises `IndexError`. -/
def select_to_account_step (env : SeleniumEnv) (s : ExecState) : ExecStep :=
  let (foundDropdown, s1) := doFind env s
  if foundDropdown then
    let (foundRow, s2) := doFind env s1
    if foundRow then Except.ok s2
    else Except.error (RunOutcome.exception "IndexError: list index out of range", s2)
  else Except.error (RunOutcome.exception "NoSuchElementException: to-account-list", s1)

/-- `insert_amount`: unguarded lookup of the amount field, then
`send_keys(str(order["amount"]))`. -/
def insert_amount_step (env : SeleniumEnv) (s : ExecState) : ExecStep :=
  let (found, s1) := doFind env s
  if found then Except.ok s1
  else Except.error (RunOutcome.exception "NoSuchElementException: amount", s1)

/-- `insert_memo`: unguarded lookup of the memo field, then
`send_keys(order["name"])`. -/
def insert_memo_step (env : SeleniumEnv) (s : ExecState) : ExecStep :=
  let (found, s1) := doFind env s
  if found then Except.ok s1
  else Except.error (RunOutcome.exception "NoSuchElementException: memo", s1)

/-- `click_next`: unguarded lookup of the next button. -/
def click_next_step (env : SeleniumEnv) (s : ExecState) : ExecStep :=
  let (found, s1) := doFind env s
  if found then Except.ok s1
  else Except.error (RunOutcome.exception "NoSuchElementException: btn-next", s1)

/-- `submit_transfer`: try to find the submit button — on failure the handler
reads the never-assigned `i`, raising `UnboundLocalError`. -/
def submit_transfer_step (env : SeleniumEnv) (s : ExecState) : ExecStep :=
  let (found, s1) := doFind env s
  if found then Except.ok s1
  else
    match pyLocalVar "i" (none : Option Nat) with
    | Except.error m => Except.error (RunOutcome.exception m, s1)
    | Except.ok i =>
      if i + 1 < 5 then Except.ok s1
      else Except.error (RunOutcome.exception "Unable to load confirmation page. Please try again.", s1)

/-- `click_make_another_transfer`: try to find the button — on failure the
handler reads the never-assigned `i`, raising `UnboundLocalError`. -/
def click_make_another_transfer_step (env : SeleniumEnv) (s : ExecState) : ExecStep :=
  let (found, s1) := doFind env s
  if found then Except.ok s1
  else
    match pyLocalVar "i" (none : Option Nat) with
    | Except.error m => Except.error (RunOutcome.exception m, s1)
    | Except.ok i =>
      if i + 1 < 5 then Except.ok s1
      else Except.error (RunOutcome.exception "Unable to load completion page. Please try again.", s1)

/-- `complete_transfer_form`: the four form-filling steps of one order; the
order is recorded as attempted the moment its form filling begins. -/
def complete_transfer_form_step (env : SeleniumEnv) (order : TransferOrder)
    (s : ExecState) : ExecStep :=
  match select_from_account_step env { s with attempted := s.attempted ++ [order] } with
  | Except.error r => Except.error r
  | Except.ok s1 =>
    match select_to_account_step env s1 with
    | Except.error r => Except.error r
    | Except.ok s2 =>
      match insert_amount_step env s2 with
      | Except.error r => Except.error r
      | Except.ok s3 => insert_memo_step env s3

/-- The body of the inner per-order loop of `perform_transfers_via_selenium`:
wait for the transfers page, verify it, fill the form, click next, wait for
the review page, submit, wait for the confirmation page, start another. -/
def run_order (env : SeleniumEnv) (wfuel : Nat) (order : TransferOrder)
    (s : ExecState) : ExecStep :=
  match doWait env transfersMainUrl wfuel s with
  | Except.error r => Except.error r
  | Except.ok s1 =>
    match verify_navigation_step env s1 with
    | Except.error r => Except.error r
    | Except.ok s2 =>
      match complete_transfer_form_step env order s2 with
      | Except.error r => Except.error r
      | Except.ok s3 =>
        match click_next_step env s3 with
        | Except.error r => Except.error r
        | Except.ok s4 =>
          match doWait env transfersVerifyUrl wfuel s4 with
          | Except.error r => Except.error r
          | Except.ok s5 =>
            match submit_transfer_step env s5 with
            | Except.error r => Except.error r
            | Except.ok s6 =>
              match doWait env transfersConfirmUrl wfuel s6 with
              | Except.error r => Except.error r
              | Except.ok s7 => click_make_another_transfer_step env s7

/-- The four orders of one settlement item, in list order. -/
def run_orders (env : SeleniumEnv) (wfuel : Nat) :
    List TransferOrder → ExecState → ExecStep
  | [], s => Except.ok s
  | o :: os, s =>
    match run_order env wfuel o s with
    | Except.error r => Except.error r
    | Except.ok s1 => run_orders env wfuel os s1

/-- The outer loop over the settlement items, in selection order. -/
def run_items (env : SeleniumEnv) (c : Constants) (wfuel : Nat) :
    List SettlementCase → ExecState → ExecStep
  | [], s => Except.ok s
  | it :: its, s =>
    match run_orders env wfuel (initialize_transfer_dict c it) s with
    | Except.error r => Except.error r
    | Except.ok s1 => run_items env c wfuel its s1

/-- The prefix of `perform_transfers_via_selenium` before `verify_login`:
open the homepage and wait for it, log in, wait for the accounts page. -/
def run_until_verify (env : SeleniumEnv) (wfuel : Nat) : ExecStep :=
  match doWait env homeUrl wfuel initState with
  | Except.error r => Except.error r
  | Except.ok s1 =>
    match execute_login_step env s1 with
    | Except.error r => Except.error r
    | Except.ok s2 => doWait env mainAccountsUrl wfuel s2

/-- `perform_transfers_via_selenium`: the whole run — reach the site, log in,
verify the login, navigate to transfers, then the per-item and per-order
loops; `browser.close()` only on normal completion. -/
def perform_transfers_via_selenium (env : SeleniumEnv) (c : Constants)
    (transfer_items : List SettlementCase) (wfuel : Nat) : RunOutcome × ExecState :=
  match run_until_verify env wfuel with
  | Except.error r => r
  | Except.ok s1 =>
    match verify_login_step env s1 with
    | Except.error r => r
    | Except.ok s2 =>
      match navigate_to_transfers_step env s2 with
      | Except.error r => r
      | Except.ok s3 =>
        match run_items env c wfuel transfer_items s3 with
        | Except.error r => r
        | Except.ok s4 => (RunOutcome.completed, s4)

/-- A settlement row used as concrete test data (spreadsheet row 2, label 0). -/
def rowA : List PyVal :=
  [PyVal.str "Alpha", PyVal.int 100, PyVal.int 20, PyVal.int 30, PyVal.int 40]

/-- A settlement row used as concrete test data (spreadsheet row 3, label 1). -/
def rowB : List PyVal :=
  [PyVal.str "Beta", PyVal.int 200, PyVal.int 21, PyVal.int 31, PyVal.int 41]

/-- A concrete post-preprocessing table with two eligible rows, labels 0 and 1
(spreadsheet rows 2 and 3). -/
def dfAB : DataFrame := ⟨REQUIRED_COLUMNS, [(0, rowA), (1, rowB)]⟩

/-- A concrete browser oracle: homepage on the first read, the accounts page
on the second, then the URL moves away — login completes, but by the time
`verify_login` reads the URL it no longer matches. -/
def envLoginDrift : SeleniumEnv :=
  ⟨fun t => if t = 0 then homeUrl else if t = 1 then mainAccountsUrl else "about:blank",
   fun _ => true⟩

/-- A concrete browser oracle in which every element lookup fails. -/
def envFindFail : SeleniumEnv := ⟨fun _ => "", fun _ => false⟩

/-- Concrete account-number configuration for the witnesses. -/
def constsW : Constants := ⟨1111, 2222, 3333, 4444, 5555⟩

lemma locLookup_all_present (rows : List (Int × List PyVal)) (ns : List Int)
    (h : ∀ n ∈ ns, (lookupLabel rows (n - 2)).isSome) :
    locLookup rows (ns.map (fun n => n - 2)) =
      some (ns.map (fun n => (n - 2, (lookupLabel rows (n - 2)).getD []))) := by
  induction ns with
  | nil => rfl
  | cons a l ih =>
    have ha := h a (List.mem_cons_self a l)
    obtain ⟨r, hr⟩ := Option.isSome_iff_exists.mp ha
    have ihl := ih (fun n hn => h n (List.mem_cons_of_mem _ hn))
    simp only [List.map_cons, locLookup, hr, ihl, Option.getD_some]

lemma locLookup_some_missing (rows : List (Int × List PyVal)) (ns : List Int)
    (h : ∃ n ∈ ns, lookupLabel rows (n - 2) = none) :
    locLookup rows (ns.map (fun n => n - 2)) = none := by
  induction ns with
  | nil => simp at h
  | cons a l ih =>
    rcases h with ⟨n, hn, hnone⟩
    rcases List.mem_cons.mp hn with heq | hmem
    · subst heq
      simp only [List.map_cons, locLookup, hnone]
    · simp only [List.map_cons, locLookup]
      rw [ih ⟨n, hmem, hnone⟩]
      cases lookupLabel rows (a - 2) <;> rfl

lemma drop_duplicates_aux_nodup (rows : List (Int × List PyVal)) :
    ∀ seen : List (List PyVal),
      ((drop_duplicates_aux seen rows).map Prod.snd).Nodup ∧
      ∀ q ∈ drop_duplicates_aux seen rows, q.2 ∉ seen := by
  induction rows with
  | nil => intro seen; simp [drop_duplicates_aux]
  | cons p rest ih =>
    intro seen
    by_cases hp : p.2 ∈ seen
    · simp only [drop_duplicates_aux, if_pos hp]
      exact (ih seen)
    · simp only [drop_duplicates_aux, if_neg hp]
      have ihx := ih (p.2 :: seen)
      constructor
      · simp only [List.map_cons, List.nodup_cons]
        constructor
        · intro hmem
          rcases List.mem_map.mp hmem with ⟨q, hq, hq2⟩
          exact (ihx.2 q hq) (hq2 ▸ List.mem_cons_self _ _)
        · exact ihx.1
      · intro q hq
        rcases List.mem_cons.mp hq with heq | hmem
        · subst heq; exact hp
        · exact fun hcon => (ihx.2 q hmem) (List.mem_cons_of_mem _ hcon)

lemma drop_duplicates_aux_subset (rows : List (Int × List PyVal)) :
    ∀ seen q, q ∈ drop_duplicates_aux seen rows → q ∈ rows := by
  induction rows with
  | nil => intro seen q h; simp [drop_duplicates_aux] at h
  | cons p rest ih =>
    intro seen q h
    by_cases hp : p.2 ∈ seen
    · rw [drop_duplicates_aux, if_pos hp] at h
      exact List.mem_cons_of_mem _ (ih seen q h)
    · rw [drop_duplicates_aux, if_neg hp] at h
      rcases List.mem_cons.mp h with heq | hmem
      · exact heq ▸ List.mem_cons_self _ _
      · exact List.mem_cons_of_mem _ (ih _ q hmem)

lemma drop_duplicates_aux_cover (rows : List (Int × List PyVal)) :
    ∀ seen p, p ∈ rows →
      p.2 ∈ (drop_duplicates_aux seen rows).map Prod.snd ∨ p.2 ∈ seen := by
  induction rows with
  | nil => intro seen p h; simp at h
  | cons q rest ih =>
    intro seen p h
    rcases List.mem_cons.mp h with heq | hmem
    · subst heq
      by_cases hp : p.2 ∈ seen
      · exact Or.inr hp
      · rw [drop_duplicates_aux, if_neg hp]
        exact Or.inl (by simp)
    · by_cases hq : q.2 ∈ seen
      · rw [drop_duplicates_aux, if_pos hq]
        exact ih seen p hmem
      · rw [drop_duplicates_aux, if_neg hq]
        rcases ih (q.2 :: seen) p hmem with hin | hseen
        · exact Or.inl (by simp only [List.map_cons]; exact List.mem_cons_of_mem _ hin)
        · rcases List.mem_cons.mp hseen with h2 | h2
          · exact Or.inl (by simp [h2])
          · exact Or.inr h2

lemma convert_items_length (cols : List String) :
    ∀ (l : List (Int × List PyVal)) (items : List SettlementCase),
      convert_settlement_rows_to_transfer_items cols l = some items →
      items.length = l.length := by
  intro l
  induction l with
  | nil => intro items h; simp [convert_settlement_rows_to_transfer_items] at h; simp [← h]
  | cons p rest ih =>
    intro items h
    rw [convert_settlement_rows_to_transfer_items] at h
    cases hc : parse_settlement_series cols p.2 with
    | none => rw [hc] at h; cases h
    | some c =>
      rw [hc] at h
      cases hr : convert_settlement_rows_to_transfer_items cols rest with
      | none => rw [hr] at h; cases h
      | some cs =>
        rw [hr] at h
        cases h
        simp [ih cs hr]

lemma findSubsetIdxs_mem (cols : List String) :
    ∀ (subset : List String) (js : List Nat),
      findSubsetIdxs cols subset = some js →
      ∀ c ∈ subset, ∃ j, cols.findIdx? (fun x => x == c) = some j ∧ j ∈ js := by
  intro subset
  induction subset with
  | nil => intro js _ c hc; simp at hc
  | cons a l ih =>
    intro js h c hc
    rw [findSubsetIdxs] at h
    cases hf : cols.findIdx? (fun x => x == a) with
    | none => rw [hf] at h; cases h
    | some j =>
      rw [hf] at h
      cases hr : findSubsetIdxs cols l with
      | none => rw [hr] at h; cases h
      | some js2 =>
        rw [hr] at h
        cases h
        rcases List.mem_cons.mp hc with heq | hmem
        · exact ⟨j, heq ▸ hf, List.mem_cons_self _ _⟩
        · rcases ih js2 hr c hmem with ⟨j2, hj2, hmem2⟩
          exact ⟨j2, hj2, List.mem_cons_of_mem _ hmem2⟩

lemma doWait_ok_inv (env : SeleniumEnv) (url : String) (wfuel : Nat) (s s2 : ExecState)
    (h : doWait env url wfuel s = Except.ok s2) :
    s2.attempted = s.attempted ∧ s2.navigated = s.navigated ∧ s2.f = s.f := by
  unfold doWait at h
  rcases hw : wait_for_url_load env.urlAt url 10 wfuel 0 s.t s.log with ⟨o, t2, log2⟩
  rw [hw] at h
  cases o with
  | none => cases h
  | some u => cases h; exact ⟨rfl, rfl, rfl⟩

lemma execute_login_ok_inv (env : SeleniumEnv) (s s2 : ExecState)
    (h : execute_login_step env s = Except.ok s2) :
    s2.attempted = s.attempted ∧ s2.navigated = s.navigated := by
  unfold execute_login_step doFind at h
  cases hb : env.findOk s.f with
  | true =>
    rw [hb] at h
    simp only [if_true] at h
    cases hb2 : env.findOk (s.f + 1) with
    | true => rw [hb2] at h; simp only [if_true] at h; cases h; exact ⟨rfl, rfl⟩
    | false => rw [hb2] at h; simp only [Bool.false_eq_true, if_false] at h; cases h
  | false =>
    rw [hb] at h
    simp only [Bool.false_eq_true, if_false, pyLocalVar] at h
    cases h

lemma run_until_verify_inv (env : SeleniumEnv) (wfuel : Nat) (s : ExecState)
    (h : run_until_verify env wfuel = Except.ok s) :
    s.attempted = [] ∧ s.navigated = false := by
  unfold run_until_verify at h
  cases h1 : doWait env homeUrl wfuel initState with
  | error r => simp only [h1] at h; cases h
  | ok s1 =>
    simp only [h1] at h
    cases h2 : execute_login_step env s1 with
    | error r => simp only [h2] at h; cases h
    | ok s2 =>
      simp only [h2] at h
      have i1 := doWait_ok_inv env homeUrl wfuel initState s1 h1
      have i2 := execute_login_ok_inv env s1 s2 h2
      have i3 := doWait_ok_inv env mainAccountsUrl wfuel s2 s h
      refine ⟨?_, ?_⟩
      · rw [i3.1, i2.1, i1.1]; rfl
      · rw [i3.2.1, i2.2, i1.2.1]; rfl

/-- C4: for every account configuration and every settlement row,
`initialize_transfer_dict` returns exactly 4 transfer orders, in the fixed
sequence IOLTA→Operating, Operating→Marketing, Operating→Cash-Loan,
Operating→Building, with labels and `str(...)`-rendered account numbers taken
from the configured templates, each memo equal to the row client name, and
each amount equal to the corresponding row field unchanged (blank or zero
included). -/
theorem claim4_plan_four_fixed_orders (c : Constants) (item : SettlementCase) :
    (initialize_transfer_dict c item).length = 4 ∧
    (initialize_transfer_dict c item).map TransferOrder.from_acct =
      ["Iolta", "Operating", "Operating", "Operating"] ∧
    (initialize_transfer_dict c item).map TransferOrder.to_acct =
      ["Operating", "Marketing", "Cash Loan Repayment Fund", "Building"] ∧
    (initialize_transfer_dict c item).map TransferOrder.from_acct_num =
      [toString c.IOLTA_ACCT_NUM, toString c.OPERATING_ACCT_NUM,
       toString c.OPERATING_ACCT_NUM, toString c.OPERATING_ACCT_NUM] ∧
    (initialize_transfer_dict c item).map TransferOrder.to_acct_num =
      [toString c.OPERATING_ACCT_NUM, toString c.MARKETING_ACCT_NUM,
       toString c.CASH_ACCT_NUM, toString c.BUILDING_ACCT_NUM] ∧
    (initialize_transfer_dict c item).map TransferOrder.amount =
      [item.amount_iolta_to_operating, item.amount_operating_to_marketing,
       item.amount_operating_to_cash, item.amount_operating_to_building] ∧
    (initialize_transfer_dict c item).map TransferOrder.name =
      [item.client_name, item.client_name, item.client_name, item.client_name] :=
  ⟨rfl, rfl, rfl, rfl, rfl, rfl, rfl⟩

/-- C8: a confirmation answer whose lowercased, stripped form starts with
`y` yields true and consumes only that answer; one starting with `n` yields
false; anything else (the empty string included) makes the prompt repeat on
the remaining answers. -/
theorem claim8_yes_no_prompt (r : String) (rest : List String) :
    (pySlice1 (pyStrip (pyLower r)) = "y" →
        response_is_yes (r :: rest) = some (true, rest)) ∧
    (pySlice1 (pyStrip (pyLower r)) = "n" →
        response_is_yes (r :: rest) = some (false, rest)) ∧
    (pySlice1 (pyStrip (pyLower r)) ≠ "y" → pySlice1 (pyStrip (pyLower r)) ≠ "n" →
        response_is_yes (r :: rest) = response_is_yes rest) := by
  refine ⟨fun hy => ?_, fun hn => ?_, fun hy hn => ?_⟩
  · rw [response_is_yes, if_pos hy]
  · rw [response_is_yes]
    by_cases hy : pySlice1 (pyStrip (pyLower r)) = "y"
    · rw [hy] at hn; exact absurd hn (by decide)
    · rw [if_neg hy, if_pos hn]
  · rw [response_is_yes, if_neg hy, if_neg hn]

/-- C8 witness: "YES " answers yes, "No" answers no, and the empty string and
"maybe" are skipped until the next y/n-prefixed answer. -/
theorem claim8_yes_no_witness :
    response_is_yes ["YES ", "x"] = some (true, ["x"]) ∧
    response_is_yes ["No", "x"] = some (false, ["x"]) ∧
    response_is_yes ["", "maybe", "Y"] = some (true, []) := by
  refine ⟨(claim8_yes_no_prompt "YES " ["x"]).1 (by decide),
          (claim8_yes_no_prompt "No" ["x"]).2.1 (by decide), ?_⟩
  have h1 := (claim8_yes_no_prompt "" ["maybe", "Y"]).2.2 (by decide) (by decide)
  have h2 := (claim8_yes_no_prompt "maybe" ["Y"]).2.2 (by decide) (by decide)
  have h3 := (claim8_yes_no_prompt "Y" []).1 (by decide)
  rw [h1, h2, h3]

/-- C10: in each of the five element-lookup retry handlers, one single failed
lookup ends the run with an uncaught exception at once — in `execute_login`
control falls through to the never-bound `user_field`, in the four others the
handler reads the never-assigned counter `i` — so the 5-attempt retry that
the handlers were written for never happens. -/
theorem claim10_retry_handlers_raise (env : SeleniumEnv) (s : ExecState)
    (h : env.findOk s.f = false) :
    execute_login_step env s =
      Except.error (RunOutcome.exception (unboundLocalMsg "user_field"), { s with f := s.f + 1 }) ∧
    navigate_to_transfers_step env s =
      Except.error (RunOutcome.exception (unboundLocalMsg "i"), { s with f := s.f + 1 }) ∧
    select_from_account_step env s =
      Except.error (RunOutcome.exception (unboundLocalMsg "i"), { s with f := s.f + 1 }) ∧
    submit_transfer_step env s =
      Except.error (RunOutcome.exception (unboundLocalMsg "i"), { s with f := s.f + 1 }) ∧
    click_make_another_transfer_step env s =
      Except.error (RunOutcome.exception (unboundLocalMsg "i"), { s with f := s.f + 1 }) := by
  refine ⟨?_, ?_, ?_, ?_, ?_⟩ <;>
    simp [execute_login_step, navigate_to_transfers_step, select_from_account_step,
      submit_transfer_step, click_make_another_transfer_step, doFind, pyLocalVar, h]

/-- C10 witness: with an oracle whose every lookup fails, each of the five
handlers raises the unbound-variable exception on its first lookup. -/
theorem claim10_retry_handlers_witness :
    execute_login_step envFindFail initState =
      Except.error (RunOutcome.exception (unboundLocalMsg "user_field"),
        { initState with f := initState.f + 1 }) ∧
    navigate_to_transfers_step envFindFail initState =
      Except.error (RunOutcome.exception (unboundLocalMsg "i"),
        { initState with f := initState.f + 1 }) ∧
    select_from_account_step envFindFail initState =
      Except.error (RunOutcome.exception (unboundLocalMsg "i"),
        { initState with f := initState.f + 1 }) ∧
    submit_transfer_step envFindFail initState =
      Except.error (RunOutcome.exception (unboundLocalMsg "i"),
        { initState with f := initState.f + 1 }) ∧
    click_make_another_transfer_step envFindFail initState =
      Except.error (RunOutcome.exception (unboundLocalMsg "i"),
        { initState with f := initState.f + 1 }) :=
  claim10_retry_handlers_raise envFindFail initState rfl

/-- C1 (code bug): when the expected URL is never reached, `wait_for_url_load`
does NOT abort after `max_iter` polling attempts — its `if i > max_iter`
branch only prints, nothing raises or leaves the loop — so with the default
bound of 10 the loop is still polling after every finite number of reads
(first conjunct: the loop has not ended under any fuel, from any starting
counter), even though the "Aborting" message has already been printed
(second conjunct, after 13 reads). -/
theorem claim1_wait_never_aborts :
    (∀ fuel i t log,
      (wait_for_url_load (fun _ => "about:blank") transfersVerifyUrl 10 fuel i t log).1 = none) ∧
    waitFailMsg transfersVerifyUrl ∈
      (wait_for_url_load (fun _ => "about:blank") transfersVerifyUrl 10 13 0 0 []).2.2 := by
  constructor
  · intro fuel
    induction fuel with
    | zero => intro i t log; rfl
    | succ n ih =>
      intro i t log
      rw [wait_for_url_load, if_neg (by decide : ¬("about:blank" = transfersVerifyUrl))]
      exact ih (i + 1) (t + 1) _
  · decide

/-- C2 counterexample: the rows are NOT deduplicated by
`select_settlements_by_row` — requesting spreadsheet row 3 twice ("3,3")
returns the row at label 1 twice in the confirmed selection. -/
theorem claim2_counterexample :
    select_settlements_by_row dfAB 3 ["3,3", "y"] [] =
      (SelectResult.selected [(1, rowB), (1, rowB)], []) ∧
    ¬ ([(1, rowB), (1, rowB)] : List (Int × List PyVal)).Nodup := by
  constructor
  · decide
  · decide

/-- C2 amended: for a row-number list in which every number maps to an
eligible row, `select_settlements_by_row` (with the selection confirmed)
returns exactly the rows at labels `n - 2`, in the order the numbers were
given, one occurrence per requested number — duplicates are preserved, not
removed (deduplication only happens later, in
`preprocess_settlement_rows_for_transfer`). -/
theorem claim2_selection_order_preserving (df : DataFrame) (fuel : Nat) (s : String)
    (rows : List Int) (rest rest2 log : List String)
    (hparse : parse_row_input s = some rows)
    (havail : ∀ n ∈ rows, (lookupLabel df.rows (n - 2)).isSome)
    (hconf : response_is_yes rest = some (true, rest2)) :
    select_settlements_by_row df (fuel + 1) (s :: rest) log =
      (SelectResult.selected
        (rows.map (fun n => (n - 2, (lookupLabel df.rows (n - 2)).getD []))), log) := by
  have hloc := locLookup_all_present df.rows rows havail
  rw [select_settlements_by_row]
  simp only [hparse, hloc, hconf]

/-- C2 witness for the amended claim: requesting "2,3" with every mapped row
eligible returns the rows at labels 0 and 1, in that order. -/
theorem claim2_selection_witness :
    select_settlements_by_row dfAB 3 ["2,3", "yes"] [] =
      (SelectResult.selected [(0, rowA), (1, rowB)], []) := by
  have h := claim2_selection_order_preserving dfAB 2 "2,3" [2, 3] ["yes"] [] []
    (by decide) (by decide) (by decide)
  rw [h]
  decide

/-- C3 counterexample: a non-integer token in the row-number string is NOT
recovered — the run ends with the uncaught `ValueError` of `int`, ignoring
the valid scripted answers that a re-prompt would have consumed (contrast
with the run starting at those answers, which selects row 3). -/
theorem claim3_counterexample :
    select_settlements_by_row dfAB 3 ["3,abc", "3", "y"] [] =
      (SelectResult.pyError valueErrorMsg, []) ∧
    select_settlements_by_row dfAB 3 ["3,abc", "3", "y"] [] ≠
      select_settlements_by_row dfAB 2 ["3", "y"] [] := by
  constructor
  · decide
  · decide

/-- C3 amended: a row-number string with a non-integer token makes
`parse_row_input` raise a `ValueError` that no handler catches (the `try`
around `df.loc` catches only `KeyError`), terminating the process instead of
re-prompting. -/
theorem claim3_value_error_uncaught (df : DataFrame) (fuel : Nat) (s : String)
    (rest log : List String) (h : parse_row_input s = none) :
    select_settlements_by_row df (fuel + 1) (s :: rest) log =
      (SelectResult.pyError valueErrorMsg, log) := by
  rw [select_settlements_by_row]
  simp only [h]

/-- C3 witness for the amended claim: "3,abc" parses to `none` and the
selection call surfaces the `ValueError`. -/
theorem claim3_value_error_witness :
    parse_row_input "3,abc" = none ∧
    select_settlements_by_row dfAB 3 ["3,abc"] [] =
      (SelectResult.pyError valueErrorMsg, []) :=
  ⟨by decide, claim3_value_error_uncaught dfAB 2 "3,abc" [] [] (by decide)⟩

/-- C6: a parsed request maps each 1-based spreadsheet row number `n` to the
table label `n - 2`; when some requested row is absent from the filtered
table, the `KeyError` is caught, the row-unavailable message is printed and
the selection re-prompts on the remaining operator answers (local recovery,
first conjunct); when every`n - 2` is present the lookup succeeds and
returns the row labelled `n - 2` for each requested `n` (second conjunct). -/
theorem claim6_row_mapping_and_recovery (df : DataFrame) (fuel : Nat) (s : String)
    (rows : List Int) (rest log : List String)
    (hparse : parse_row_input s = some rows) :
    ((∃ n ∈ rows, lookupLabel df.rows (n - 2) = none) →
        select_settlements_by_row df (fuel + 1) (s :: rest) log =
          select_settlements_by_row df fuel rest (log ++ [rowUnavailableMsg])) ∧
    ((∀ n ∈ rows, (lookupLabel df.rows (n - 2)).isSome) →
        locLookup df.rows (rows.map (fun n => n - 2)) =
          some (rows.map (fun n => (n - 2, (lookupLabel df.rows (n - 2)).getD [])))) := by
  constructor
  · intro hmiss
    rw [select_settlements_by_row]
    simp only [hparse, locLookup_some_missing df.rows rows hmiss]
  · exact locLookup_all_present df.rows rows

/-- C6 witness: the spec scenario — requesting row "10", which is absent
after filtering, prints the row-unavailable message and re-prompts; the
operator then enters "3", which succeeds. -/
theorem claim6_row_mapping_witness :
    select_settlements_by_row dfAB 3 ["10", "3", "y"] [] =
      select_settlements_by_row dfAB 2 ["3", "y"] ([] ++ [rowUnavailableMsg]) ∧
    select_settlements_by_row dfAB 2 ["3", "y"] ([] ++ [rowUnavailableMsg]) =
      (SelectResult.selected [(1, rowB)], [rowUnavailableMsg]) := by
  refine ⟨(claim6_row_mapping_and_recovery dfAB 2 "10" [10] ["3", "y"] []
    (by decide)).1 ⟨10, by decide, by decide⟩, ?_⟩
  decide

/-- C7: whenever preprocessing succeeds (in particular, whenever all required
columns are present), every surviving row has a non-blank value in every
required column — rows with a blank client name or a blank amount were
dropped, so none is eligible for selection. -/
theorem claim7_blank_rows_dropped (df df2 : DataFrame)
    (h : preprocess_settlements_df df = Except.ok df2) :
    ∀ p ∈ df2.rows, ∀ c ∈ REQUIRED_COLUMNS, ∃ j,
      df2.cols.findIdx? (fun x => x == c) = some j ∧
      pyValIsBlank (p.2.getD j PyVal.blank) = false := by
  unfold preprocess_settlements_df dropnaRows at h
  cases hf : findSubsetIdxs (dropEmptyColumns (stripColumnNames df)).cols REQUIRED_COLUMNS with
  | none => rw [hf] at h; cases h
  | some js =>
    rw [hf] at h
    cases h
    intro p hp c hc
    rcases findSubsetIdxs_mem _ REQUIRED_COLUMNS js hf c hc with ⟨j, hj, hjmem⟩
    refine ⟨j, hj, ?_⟩
    rcases List.mem_filter.mp hp with ⟨_, hpred⟩
    have := (List.all_eq_true.mp hpred) j hjmem
    simpa using this

/-- C7 witness: a concrete table whose second row has a blank amount: the
blank row is dropped, the full row survives with all required fields
non-blank. -/
theorem claim7_blank_rows_witness :
    preprocess_settlements_df
        ⟨REQUIRED_COLUMNS,
         [(0, rowA),
          (1, [PyVal.str "Blank", PyVal.blank, PyVal.int 2, PyVal.int 3, PyVal.int 4])]⟩ =
      Except.ok ⟨REQUIRED_COLUMNS, [(0, rowA)]⟩ ∧
    ∀ p ∈ ([(0, rowA)] : List (Int × List PyVal)), ∀ c ∈ REQUIRED_COLUMNS, ∃ j,
      REQUIRED_COLUMNS.findIdx? (fun x => x == c) = some j ∧
      pyValIsBlank (p.2.getD j PyVal.blank) = false := by
  have heq :
      preprocess_settlements_df
        ⟨REQUIRED_COLUMNS,
         [(0, rowA),
          (1, [PyVal.str "Blank", PyVal.blank, PyVal.int 2, PyVal.int 3, PyVal.int 4])]⟩ =
      Except.ok ⟨REQUIRED_COLUMNS, [(0, rowA)]⟩ := by rfl
  exact ⟨heq, claim7_blank_rows_dropped _ _ heq⟩

/-- C9: when the operator confirms execution, the settlement rows are
deduplicated by content before any transfer is performed: the executed items
are one per surviving row, the surviving rows have pairwise-distinct content
and are all drawn from the selection, and every selected row content is still
represented — so no transfer sequence is submitted twice for identical rows. -/
theorem claim9_duplicates_collapsed (cols : List String)
    (settlement_rows : List (Int × List PyVal)) (inputs : List String)
    (items : List SettlementCase)
    (h : execute_transfers cols settlement_rows inputs = ExecTransfersResult.executed items) :
    items.length = (drop_duplicates settlement_rows).length ∧
    ((drop_duplicates settlement_rows).map Prod.snd).Nodup ∧
    (∀ p ∈ settlement_rows, p.2 ∈ (drop_duplicates settlement_rows).map Prod.snd) ∧
    (∀ q ∈ drop_duplicates settlement_rows, q ∈ settlement_rows) := by
  refine ⟨?_, (drop_duplicates_aux_nodup settlement_rows []).1,
    fun p hp => ?_, drop_duplicates_aux_subset settlement_rows []⟩
  · unfold execute_transfers at h
    cases hr : response_is_yes inputs with
    | none => rw [hr] at h; cases h
    | some br =>
      rw [hr] at h
      rcases br with ⟨b, rest⟩
      cases b with
      | false => simp at h
      | true =>
        simp only at h
        cases hc : convert_settlement_rows_to_transfer_items cols
            (drop_duplicates settlement_rows) with
        | none => rw [hc] at h; cases h
        | some its =>
          rw [hc] at h
          cases h
          exact convert_items_length cols _ items hc
  · rcases drop_duplicates_aux_cover settlement_rows [] p hp with hin | hseen
    · exact hin
    · simp at hseen

/-- C9 witness: two rows with identical content and one distinct row,
confirmed with "yes": exactly two settlement cases are executed, the deduped
rows have distinct contents, both contents are covered. -/
theorem claim9_duplicates_witness :
    execute_transfers REQUIRED_COLUMNS [(0, rowA), (1, rowA), (2, rowB)] ["yes"] =
      ExecTransfersResult.executed
        [⟨PyVal.str "Alpha", PyVal.int 100, PyVal.int 20, PyVal.int 30, PyVal.int 40⟩,
         ⟨PyVal.str "Beta", PyVal.int 200, PyVal.int 21, PyVal.int 31, PyVal.int 41⟩] ∧
    ([⟨PyVal.str "Alpha", PyVal.int 100, PyVal.int 20, PyVal.int 30, PyVal.int 40⟩,
      ⟨PyVal.str "Beta", PyVal.int 200, PyVal.int 21, PyVal.int 31, PyVal.int 41⟩] :
        List SettlementCase).length =
      (drop_duplicates [(0, rowA), (1, rowA), (2, rowB)]).length ∧
    ((drop_duplicates [(0, rowA), (1, rowA), (2, rowB)]).map Prod.snd).Nodup := by
  have heq : execute_transfers REQUIRED_COLUMNS [(0, rowA), (1, rowA), (2, rowB)] ["yes"] =
      ExecTransfersResult.executed
        [⟨PyVal.str "Alpha", PyVal.int 100, PyVal.int 20, PyVal.int 30, PyVal.int 40⟩,
         ⟨PyVal.str "Beta", PyVal.int 200, PyVal.int 21, PyVal.int 31, PyVal.int 41⟩] := by
    decide
  have h := claim9_duplicates_collapsed REQUIRED_COLUMNS [(0, rowA), (1, rowA), (2, rowB)]
    ["yes"] _ heq
  exact ⟨heq, h.1, h.2.1⟩

/-- C5: in every run that reaches `verify_login` (the homepage wait, the
login and the accounts-page wait all completed) but whose current URL at that
point is not the expected main-accounts URL, the run prints the login-failure
message and exits at once: no transfer order is ever attempted and the
navigation to the transfers page never happens. -/
theorem claim5_login_mismatch_aborts (env : SeleniumEnv) (c : Constants)
    (transfer_items : List SettlementCase) (wfuel : Nat) (s : ExecState)
    (hpre : run_until_verify env wfuel = Except.ok s)
    (hmis : env.urlAt s.t ≠ mainAccountsUrl) :
    (perform_transfers_via_selenium env c transfer_items wfuel).1 =
      RunOutcome.exited loginFailMsg ∧
    (perform_transfers_via_selenium env c transfer_items wfuel).2.attempted = [] ∧
    (perform_transfers_via_selenium env c transfer_items wfuel).2.navigated = false := by
  have hinv := run_until_verify_inv env wfuel s hpre
  have hver : verify_login_step env s =
      Except.error (RunOutcome.exited loginFailMsg,
        { s with t := s.t + 1, log := s.log ++ [loginFailMsg] }) := by
    rw [verify_login_step, if_neg hmis]
  unfold perform_transfers_via_selenium
  simp only [hpre, hver]
  exact ⟨trivial, hinv.1, hinv.2⟩

/-- C5 witness: the oracle reaches the homepage and the accounts page, so
login completes, but the URL has drifted away by the time `verify_login`
reads it: the run exits with the login-failure message, with nothing
attempted and no navigation. -/
theorem claim5_login_mismatch_witness :
    (perform_transfers_via_selenium envLoginDrift constsW
        [⟨PyVal.str "Alpha", PyVal.int 100, PyVal.int 20, PyVal.int 30, PyVal.int 40⟩] 3).1 =
      RunOutcome.exited loginFailMsg ∧
    (perform_transfers_via_selenium envLoginDrift constsW
        [⟨PyVal.str "Alpha", PyVal.int 100, PyVal.int 20, PyVal.int 30, PyVal.int 40⟩] 3).2.attempted = [] ∧
    (perform_transfers_via_selenium envLoginDrift constsW
        [⟨PyVal.str "Alpha", PyVal.int 100, PyVal.int 20, PyVal.int 30, PyVal.int 40⟩] 3).2.navigated = false := by
  have hpre : run_until_verify envLoginDrift 3 = Except.ok ⟨2, 2, [], [], false⟩ := by rfl
  exact claim5_login_mismatch_aborts envLoginDrift constsW
    [⟨PyVal.str "Alpha", PyVal.int 100, PyVal.int 20, PyVal.int 30, PyVal.int 40⟩] 3
    ⟨2, 2, [], [], false⟩ hpre (by decide)
